import Mathlib

/-!
Verification of the CellLook_Shader Blender add-on (`src/__init__.py`).

The add-on operates on the host's in-memory document model (`bpy.data`):
named shader node groups and materials, each holding a node tree (nodes with
named input/output sockets, and links between sockets).  We embed exactly the
part of that model the add-on touches:

* `IfaceItem` — an item of a node group's interface (`ng.interface.items_tree`):
  either an exposed socket (with direction `"INPUT"`/`"OUTPUT"`, a socket type
  string, and optional default/min/max values) or a panel holding children.
  Numeric fields of a freshly created socket are host defaults that the code
  never reads; we model them as `none` until the code assigns them.
* `Node`, `Link`, `NodeTree` — shader nodes carry the fields the add-on sets
  (`label`, `location`, `operation`, `data_type`, `blend_type`,
  `clamp_factor`, `clamp_result`, a node-group reference) plus their input and
  output socket lists.  A link records (from-node id, output index, to-node id,
  input index); name lookups resolve to the first socket of that name, as
  `bpy` collection subscripts do.
* `BlendData` — the document: the `bpy.data.node_groups` and
  `bpy.data.materials` collections plus a counter handing out fresh object
  identities (object identity distinguishes "same object returned" from
  "equal copy").

`bpy.data.<collection>.new(name)` never replaces an existing datablock: on a
name collision the host disambiguates with a `".001"`-style numeric suffix.
`freshDataName` models that behaviour.
-/

namespace CellLook

/-- A value a socket's `default_value` can hold: a scalar or an RGBA color. -/
inductive SockVal where
  | float (x : Rat)
  | color (r g b a : Rat)
deriving DecidableEq, Repr

/-- A node's input or output socket: its name and current `default_value`
(`none` = untouched host default, never read by the add-on). -/
structure Socket where
  name : String
  default_value : Option SockVal
deriving DecidableEq, Repr

mutual
/-- An item of a node group interface (`interface.items_tree`): an exposed
socket or a panel with children.  Panels have no `in_out` attribute. -/
inductive IfaceItem where
  | socket (name : String) (in_out : String) (socket_type : String)
      (default_value min_value max_value : Option Rat) : IfaceItem
  | panel (name : String) (children : IfaceItemList) : IfaceItem
/-- The item sequence, mutually defined with the item type. -/
inductive IfaceItemList where
  | nil : IfaceItemList
  | cons (head : IfaceItem) (tail : IfaceItemList) : IfaceItemList
end

/-- A node group's `interface` object; `items_tree` may be absent on
unexpected host versions. -/
structure Iface where
  items_tree : Option IfaceItemList

mutual
/-- One step of the code's inner `walk` generator: yield the item, then walk
its children recursively. -/
def walkItem : IfaceItem → List IfaceItem
  | .socket n io t dv mn mx => [.socket n io t dv mn mx]
  | .panel n cs => .panel n cs :: walkItems cs
/-- The preorder walk of an interface item sequence. -/
def walkItems : IfaceItemList → List IfaceItem
  | .nil => []
  | .cons x xs => walkItem x ++ walkItems xs
end

/-- The test applied to each walked item: `getattr(item, "in_out", None) ==
'OUTPUT' and getattr(item, "name", None) == name`.  Panels have no `in_out`
attribute, so they never match. -/
def itemIsOutputNamed (name : String) : IfaceItem → Bool
  | .socket n io _ _ _ _ => io == "OUTPUT" && n == name
  | .panel _ _ => false

/-- A link in a node tree: from node `fromNode`'s output socket `fromIdx`
to node `toNode`'s input socket `toIdx`. -/
structure Link where
  fromNode : Nat
  fromIdx : Nat
  toNode : Nat
  toIdx : Nat
deriving DecidableEq, Repr

/-- A shader node, with the fields the add-on reads or writes. -/
structure Node where
  id : Nat
  idname : String
  label : String
  loc : Int × Int
  op : Option String
  data_type : Option String
  blend_type : Option String
  clamp_factor : Option Bool
  clamp_result : Option Bool
  group_ref : Option Nat
  inputs : List Socket
  outputs : List Socket
deriving DecidableEq, Repr

/-- A node tree: its nodes, its links, and the next fresh node identity. -/
structure NodeTree where
  nodes : List Node
  links : List Link
  nextNode : Nat
deriving DecidableEq, Repr

/-- A named node group datablock in `bpy.data.node_groups`.  `id` is object
identity; `interface` may be absent on unexpected host versions. -/
structure NodeGroup where
  id : Nat
  name : String
  interface : Option Iface
  tree : NodeTree

/-- A material datablock in `bpy.data.materials`. -/
structure Material where
  id : Nat
  name : String
  use_nodes : Bool
  node_tree : NodeTree

/-- The document (`bpy.data`): node groups, materials, and a fresh-identity
counter for newly allocated datablocks. -/
structure BlendData where
  node_groups : List NodeGroup
  materials : List Material
  nextId : Nat

/-- `_group_has_output_socket(ng, name)`: best-effort check that the group
interface exposes an OUTPUT socket with the given name.  A missing
`interface` or missing `items_tree` (unexpected host API shape) yields
`false`. -/
def group_has_output_socket (ng : NodeGroup) (name : String) : Bool :=
  match ng.interface with
  | none => false
  | some iface =>
    match iface.items_tree with
    | none => false
    | some items => (walkItems items).any (itemIsOutputNamed name)

/-! ### Host collection behaviour: name lookup and fresh-name allocation -/

/-- `bpy.data.node_groups.get(name)`: the (first) group with that name. -/
def nodeGroupsGet (d : BlendData) (name : String) : Option NodeGroup :=
  d.node_groups.find? (fun g => g.name == name)

/-- `bpy.data.materials.get(name)`: the (first) material with that name. -/
def materialsGet (d : BlendData) (name : String) : Option Material :=
  d.materials.find? (fun m => m.name == name)

/-- The host's numeric disambiguation suffix for datablock names:
`".001"`, `".002"`, …, `".999"`, `".1000"`, … -/
def dotSuffix (i : Nat) : String :=
  if i < 10 then ".00" ++ toString i
  else if i < 100 then ".0" ++ toString i
  else "." ++ toString i

/-- One step of the host's unique-name search: try `base` itself (step 0),
then `base ++ ".001"`, `base ++ ".002"`, … until a free name is found.
`fuel` bounds the search; with `fuel = taken.length + 1` a free candidate is
always reached before exhaustion. -/
def freshNameLoop (taken : List String) (base : String) : Nat → Nat → String
  | _, 0 => base
  | i, fuel + 1 =>
    let nm := if i = 0 then base else base ++ dotSuffix i
    if taken.contains nm then freshNameLoop taken base (i + 1) fuel else nm

/-- The name the host actually stores when `new(base)` is called: `base`
itself if free, else the first free `".NNN"`-suffixed variant. -/
def freshDataName (taken : List String) (base : String) : String :=
  freshNameLoop taken base 0 (taken.length + 1)

/-! ### `_backup_existing_group_if_incompatible` -/

/-- Is `nm` the name of an existing node group (`bpy.data.node_groups.get`
truthiness in the `while` loop)? -/
def groupNameTaken (d : BlendData) (nm : String) : Bool :=
  d.node_groups.any (fun g => g.name == nm)

/-- The candidate backup names tried by the `while` loop, in order:
`idx = 1` is the plain `base` (`"<name>_OLD"`); from `idx = 2` on the loop
forms `base ++ "_" ++ str(idx)`. -/
def oldCandidate (base : String) : Nat → String
  | 1 => base
  | i => base ++ "_" ++ toString i

/-- The `while bpy.data.node_groups.get(new_name)` search: starting at `idx`,
return the first candidate whose name is not taken.  `fuel` bounds the loop;
with `fuel = d.node_groups.length + 1` the candidates tried outnumber the
taken names, so a free one is reached before exhaustion. -/
def freeOldNameLoop (d : BlendData) (base : String) : Nat → Nat → String
  | idx, 0 => oldCandidate base idx
  | idx, fuel + 1 =>
    if groupNameTaken d (oldCandidate base idx) then
      freeOldNameLoop d base (idx + 1) fuel
    else oldCandidate base idx

/-- The backup name chosen for an incompatible group named `group_name`:
`"<name>_OLD"`, else `"<name>_OLD_2"`, `"<name>_OLD_3"`, … -/
def freeOldName (d : BlendData) (group_name : String) : String :=
  freeOldNameLoop d (group_name ++ "_OLD") 1 (d.node_groups.length + 1)

/-- `ng.name = new_name`: rename the first group named `old` (the object the
preceding `get` returned), leaving every other group and the renamed group's
own content untouched. -/
def renameFirst : List NodeGroup → String → String → List NodeGroup
  | [], _, _ => []
  | g :: gs, old, new =>
    if g.name == old then { g with name := new } :: gs
    else g :: renameFirst gs old new

/-- `_backup_existing_group_if_incompatible(group_name)`: if a group of that
name exists and lacks the `"Mask"` output, rename it to the first free
`"<name>_OLD"`-style name; otherwise do nothing. -/
def backup_existing_group_if_incompatible (d : BlendData) (group_name : String) :
    BlendData :=
  match nodeGroupsGet d group_name with
  | none => d
  | some ng =>
    if group_has_output_socket ng "Mask" then d
    else
      { d with node_groups :=
          renameFirst d.node_groups group_name (freeOldName d group_name) }

/-! ### Socket plumbing shared by both builders -/

/-- Index of the first socket satisfying `p`, or `none`. -/
def firstIdx (p : Socket → Bool) : List Socket → Option Nat
  | [] => none
  | s :: ss => if p s then some 0 else (firstIdx p ss).map (fun i => i + 1)

/-- Index of the first input socket named `nm` (`nm in node.inputs` /
`node.inputs[nm]` resolve against the first match). -/
def inIdx (n : Node) (nm : String) : Option Nat :=
  firstIdx (fun s => s.name == nm) n.inputs

/-- Index of the first output socket named `nm`. -/
def outIdx (n : Node) (nm : String) : Option Nat :=
  firstIdx (fun s => s.name == nm) n.outputs

/-- Overwrite input socket `j`'s `default_value`. -/
def setInputVal (n : Node) (j : Nat) (v : SockVal) : Node :=
  match n.inputs[j]? with
  | some s => { n with inputs := n.inputs.set j { s with default_value := some v } }
  | none => n

/-- `node.inputs[nm].default_value = v` for a socket known to exist on the
just-created node. -/
def setInputByName (n : Node) (nm : String) (v : SockVal) : Node :=
  match inIdx n nm with
  | some j => setInputVal n j v
  | none => n

/-- `links.new(a.outputs[anm], b.inputs[bnm])` between two just-created nodes
whose fixed socket layout guarantees both lookups succeed (the empty result
is dead code for the node types the add-on instantiates). -/
def mkLink (a : Node) (anm : String) (b : Node) (bnm : String) : List Link :=
  match outIdx a anm, inIdx b bnm with
  | some i, some j => [⟨a.id, i, b.id, j⟩]
  | _, _ => []

/-- `links.new(a.outputs[anm], b.inputs[j])`: named output to indexed input. -/
def mkLinkToIdx (a : Node) (anm : String) (b : Node) (j : Nat) : List Link :=
  match outIdx a anm with
  | some i => [⟨a.id, i, b.id, j⟩]
  | none => []

/-- The exposed sockets of direction `io` in interface order, panels included
(`NodeGroupInput`/`NodeGroupOutput`/`ShaderNodeGroup` sockets mirror the
interface). -/
def ifaceSockets (io : String) (items : IfaceItemList) : List Socket :=
  (walkItems items).filterMap fun it =>
    match it with
    | .socket n dir _ _ _ _ => if dir == io then some ⟨n, none⟩ else none
    | .panel _ _ => none

/-- The sockets a `ShaderNodeGroup` instance (or group input/output node) of
group `g` exposes for direction `io`; empty when the interface is absent. -/
def groupSockets (io : String) (g : NodeGroup) : List Socket :=
  match g.interface with
  | some iface =>
    match iface.items_tree with
    | some items => ifaceSockets io items
    | none => []
  | none => []

/-! ### `get_or_create_group`: the fresh mask subgraph -/

/-- The interface built for a fresh mask group:
`iface.new_socket("Ramp Pos", INPUT, NodeSocketFloat)` with
`default_value = 0.7`, `min_value = 0.0`, `max_value = 1.0`, then
`iface.new_socket("Mask", OUTPUT, NodeSocketColor)`. -/
def maskGroupItems : IfaceItemList :=
  .cons (.socket "Ramp Pos" "INPUT" "NodeSocketFloat" (some 0.7) (some 0) (some 1))
    (.cons (.socket "Mask" "OUTPUT" "NodeSocketColor" none none none) .nil)

/-- A freshly created node before any field assignments. -/
def baseNode (id : Nat) (idname : String) (loc : Int × Int)
    (ins outs : List Socket) : Node :=
  { id := id, idname := idname, label := "", loc := loc, op := none,
    data_type := none, blend_type := none, clamp_factor := none,
    clamp_result := none, group_ref := none, inputs := ins, outputs := outs }

/-- `link_scalar_to_rgb`, one channel: link `src`'s output `si` to the first
input of `dst` among `cands` that exists (`for nm in cands: if nm in
dst.inputs: link; break`). -/
def linkScalarChannel (src : Node) (si : Nat) (dst : Node)
    (cands : List String) : List Link :=
  match cands.findSome? (fun nm => inIdx dst nm) with
  | some j => [⟨src.id, si, dst.id, j⟩]
  | none => []

/-- The node tree `get_or_create_group` builds inside a fresh group (nodes in
creation order, ids 0–7; the fresh tree has no nodes, so the initial
`nodes.remove` loop clears nothing). -/
def newMaskGroupTree : NodeTree :=
  -- NodeGroupInput / NodeGroupOutput mirror the interface (plus the host's
  -- trailing virtual socket).
  let n_in := baseNode 0 "NodeGroupInput" (-900, 0) []
    (ifaceSockets "INPUT" maskGroupItems ++ [⟨"", none⟩])
  let n_out := baseNode 1 "NodeGroupOutput" (620, 0)
    (ifaceSockets "OUTPUT" maskGroupItems ++ [⟨"", none⟩]) []
  let n_diffuse :=
    setInputByName
      (setInputByName
        (baseNode 2 "ShaderNodeBsdfDiffuse" (-700, 0)
          [⟨"Color", none⟩, ⟨"Roughness", none⟩, ⟨"Normal", none⟩]
          [⟨"BSDF", none⟩])
        "Roughness" (.float 0))
      "Color" (.color 1 1 1 1)
  let n_s2rgb := baseNode 3 "ShaderNodeShaderToRGB" (-480, 0)
    [⟨"Shader", none⟩] [⟨"Color", none⟩, ⟨"Alpha", none⟩]
  let n_rgb2bw := baseNode 4 "ShaderNodeRGBToBW" (-260, 0)
    [⟨"Color", none⟩] [⟨"Val", none⟩]
  let n_gt := { baseNode 5 "ShaderNodeMath" (-40, 0)
      [⟨"Value", none⟩, ⟨"Value", none⟩, ⟨"Value", none⟩] [⟨"Value", none⟩]
    with op := some "GREATER_THAN", label := "Threshold (Ramp Pos)" }
  let n_inv := setInputVal
    { baseNode 6 "ShaderNodeMath" (170, 0)
        [⟨"Value", none⟩, ⟨"Value", none⟩, ⟨"Value", none⟩] [⟨"Value", none⟩]
      with op := some "SUBTRACT", label := "Invert (fixed)" }
    0 (.float 1)  -- 1 - x
  let n_combine := { baseNode 7 "ShaderNodeCombineColor" (380, 0)
      [⟨"Red", none⟩, ⟨"Green", none⟩, ⟨"Blue", none⟩] [⟨"Color", none⟩]
    with label := "Mask to Color" }
  -- if "Ramp Pos" in n_in.outputs: link it to n_gt.inputs[1];
  -- else: n_gt.inputs[1].default_value = 0.7  (dead on this interface)
  let rampPresent := n_in.outputs.any (fun s => s.name == "Ramp Pos")
  let rampLink : List Link :=
    if rampPresent then mkLinkToIdx n_in "Ramp Pos" n_gt 1 else []
  let n_gt := if rampPresent then n_gt else setInputVal n_gt 1 (.float 0.7)
  -- if "Mask" in n_out.inputs: combine.Color -> n_out["Mask"];
  -- else: combine.Color -> n_out.inputs[0]
  let maskLink : List Link :=
    if (n_out.inputs.any (fun s => s.name == "Mask")) then
      mkLink n_combine "Color" n_out "Mask"
    else mkLinkToIdx n_combine "Color" n_out 0
  { nodes := [n_in, n_out, n_diffuse, n_s2rgb, n_rgb2bw, n_gt, n_inv, n_combine],
    links :=
      mkLink n_diffuse "BSDF" n_s2rgb "Shader" ++
      mkLink n_s2rgb "Color" n_rgb2bw "Color" ++
      mkLinkToIdx n_rgb2bw "Val" n_gt 0 ++      -- rgb2bw.Val -> gt.inputs[0]
      rampLink ++                               -- Ramp Pos -> gt.inputs[1]
      [⟨n_gt.id, 0, n_inv.id, 1⟩] ++           -- gt.outputs[0] -> inv.inputs[1]
      linkScalarChannel n_inv 0 n_combine ["Red", "R"] ++
      linkScalarChannel n_inv 0 n_combine ["Green", "G"] ++
      linkScalarChannel n_inv 0 n_combine ["Blue", "B"] ++
      maskLink,
    nextNode := 8 }

/-- The fresh, compatible mask group datablock. -/
def newMaskGroup (id : Nat) (name : String) : NodeGroup :=
  { id := id, name := name, interface := some ⟨some maskGroupItems⟩,
    tree := newMaskGroupTree }

/-- `bpy.data.node_groups.new(group_name, "ShaderNodeTree")` followed by the
whole construction: allocate a fresh datablock (host-disambiguated name) and
build interface, nodes and links. -/
def mkNewGroup (d : BlendData) (group_name : String) : BlendData × NodeGroup :=
  let nm := freshDataName (d.node_groups.map (fun g => g.name)) group_name
  let g := newMaskGroup d.nextId nm
  ({ d with node_groups := d.node_groups ++ [g], nextId := d.nextId + 1 }, g)

/-- `get_or_create_group(group_name)`: back up an incompatible existing group,
return a compatible existing group unchanged, otherwise build a fresh one. -/
def get_or_create_group (d : BlendData) (group_name : String) :
    BlendData × NodeGroup :=
  let d1 := backup_existing_group_if_incompatible d group_name
  match nodeGroupsGet d1 group_name with
  | some ng =>
    if group_has_output_socket ng "Mask" then (d1, ng)
    else mkNewGroup d1 group_name
  | none => mkNewGroup d1 group_name

/-! ### `create_celllook_material` -/

/-- The node tree `mat.use_nodes = True` installs in a fresh material: a
Principled BSDF wired to a Material Output (only the sockets that default
link uses matter — the very next statement removes both nodes). -/
def defaultUseNodesTree : NodeTree :=
  { nodes :=
      [ baseNode 0 "ShaderNodeBsdfPrincipled" (0, 0) [] [⟨"BSDF", none⟩],
        baseNode 1 "ShaderNodeOutputMaterial" (0, 0)
          [⟨"Surface", none⟩, ⟨"Volume", none⟩, ⟨"Displacement", none⟩,
           ⟨"Thickness", none⟩] [] ],
    links := [⟨0, 0, 1, 0⟩],
    nextNode := 2 }

/-- `set_socket_color(node, socket_candidates, value)`: set the first input
among the candidates that exists; do nothing when none does. -/
def set_socket_color (n : Node) (cands : List String) (v : SockVal) : Node :=
  match cands.findSome? (fun nm => inIdx n nm) with
  | some j => setInputVal n j v
  | none => n

/-- The ordered output fallback of the material builder:
`n_group.outputs.get("Mask") or n_group.outputs.get("Color")`, and if both
miss, `n_group.outputs[0]` when any output exists. -/
def pickGroupOutIdx (outs : List Socket) : Option Nat :=
  match firstIdx (fun s => s.name == "Mask") outs with
  | some i => some i
  | none =>
    match firstIdx (fun s => s.name == "Color") outs with
    | some i => some i
    | none => if outs.length > 0 then some 0 else none

/-- Lines 238–244: find the mix factor socket (`"Factor"` or `"Fac"`), pick
the group output by the ordered fallback, and create the link; skip the link
(returning no link) when either side is missing. -/
def linkMaskToFactor (n_group n_mix : Node) : List Link :=
  match (inIdx n_mix "Factor").or (inIdx n_mix "Fac") with
  | none => []
  | some j =>
    match pickGroupOutIdx n_group.outputs with
    | none => []
    | some i => [⟨n_group.id, i, n_mix.id, j⟩]

/-- `create_celllook_material(mat_name, group_name)`: allocate a brand-new
material (`bpy.data.materials.new`), enable nodes, clear the default nodes,
and build Group Mask -> Mix(Factor) -> Emission -> Output. -/
def create_celllook_material (d : BlendData) (mat_name : String)
    (group_name : String) : BlendData × Material :=
  -- mat = bpy.data.materials.new(mat_name): a fresh datablock; the host
  -- disambiguates the name against existing materials.
  let mName := freshDataName (d.materials.map (fun m => m.name)) mat_name
  let matId := d.nextId
  let d := { d with nextId := matId + 1 }
  -- mat.use_nodes = True, then: for n in list(nodes): nodes.remove(n)
  let t0 := { defaultUseNodesTree with nodes := [], links := [] }
  let n_out := baseNode t0.nextNode "ShaderNodeOutputMaterial" (820, 0)
    [⟨"Surface", none⟩, ⟨"Volume", none⟩, ⟨"Displacement", none⟩,
     ⟨"Thickness", none⟩] []
  let n_em := setInputByName
    (baseNode (t0.nextNode + 1) "ShaderNodeEmission" (600, 0)
      [⟨"Color", none⟩, ⟨"Strength", none⟩] [⟨"Emission", none⟩])
    "Strength" (.float 1)
  let dg := get_or_create_group d group_name
  let d := dg.1
  let group := dg.2
  let n_group := { baseNode (t0.nextNode + 2) "ShaderNodeGroup" (0, 0)
      (groupSockets "INPUT" group) (groupSockets "OUTPUT" group)
    with group_ref := some group.id, label := "Cell Look Mask (LOCKED)" }
  -- Blender 4.x ShaderNodeMix in RGBA mode exposes Factor, A, B; the legacy
  -- "Fac"/"Color1"/"Color2" candidates below are fallbacks for older hosts.
  let n_mix := { baseNode (t0.nextNode + 3) "ShaderNodeMix" (300, 0)
      [⟨"Factor", none⟩, ⟨"A", none⟩, ⟨"B", none⟩] [⟨"Result", none⟩]
    with data_type := some "RGBA", blend_type := some "MIX",
         clamp_factor := some true, clamp_result := some false }
  let n_mix := set_socket_color n_mix ["A", "Color1"] (.color 1 1 1 1)
  let n_mix := set_socket_color n_mix ["B", "Color2"] (.color 0 0 0 1)
  let tree : NodeTree :=
    { nodes := [n_out, n_em, n_group, n_mix],
      links :=
        linkMaskToFactor n_group n_mix ++
        mkLink n_mix "Result" n_em "Color" ++
        mkLink n_em "Emission" n_out "Surface",
      nextNode := t0.nextNode + 4 }
  let mat : Material :=
    { id := matId, name := mName, use_nodes := true, node_tree := tree }
  ({ d with materials := d.materials ++ [mat] }, mat)

/-! ### Derived predicates and concrete document states used in the proofs -/

/-- Does `get_or_create_group` take the construction path on `d` (no
compatible group of that name survives the backup step)? -/
def buildsFresh (d : BlendData) (nm : String) : Bool :=
  match nodeGroupsGet (backup_existing_group_if_incompatible d nm) nm with
  | some g => !(group_has_output_socket g "Mask")
  | none => true

/-- The names of the interface input sockets a group's instances expose. -/
def inputSocketNames (g : NodeGroup) : List String :=
  (groupSockets "INPUT" g).map (fun s => s.name)

/-- An empty document. -/
def dEmpty : BlendData := ⟨[], [], 0⟩

/-- A group named `"G"` whose interface has no items at all — in particular
no `"Mask"` output (an older incompatible version). -/
def gIncompat : NodeGroup := ⟨0, "G", some ⟨some .nil⟩, ⟨[], [], 0⟩⟩

/-- A document whose only group is the incompatible `"G"`. -/
def dIncompat : BlendData := ⟨[gIncompat], [], 1⟩

/-- A compatible mask group named `"G"` and a document holding only it. -/
def gCompat : NodeGroup := newMaskGroup 0 "G"

/-- A document whose only group is the compatible `"G"`. -/
def dCompat : BlendData := ⟨[gCompat], [], 1⟩

/-- A pre-existing material named `"M"` holding one unrelated node. -/
def mPrior : Material :=
  ⟨5, "M", false, ⟨[baseNode 0 "ShaderNodeValue" (0, 0) [] []], [], 1⟩⟩

/-- A document that already has a material named `"M"` with unrelated
content. -/
def dPrior : BlendData := ⟨[], [mPrior], 6⟩

/-- A node with no `"Factor"`/`"Fac"` input, used to exercise the
skip-when-absent branch of the factor-linking step. -/
def nNoFactor : Node := baseNode 9 "ShaderNodeMix" (0, 0) [] [⟨"Result", none⟩]

/-! ### Helper lemmas -/

/-- A fresh mask group is compatible: its interface exposes the `"Mask"`
output, whatever identity and name it got. -/
theorem newMaskGroup_hasMask (i : Nat) (nm : String) :
    group_has_output_socket (newMaskGroup i nm) "Mask" = true := by
  simp [newMaskGroup, group_has_output_socket, maskGroupItems, walkItems,
    walkItem, itemIsOutputNamed]

theorem firstIdx_some_of_mem {p : Socket → Bool} {l : List Socket} {s : Socket}
    (hs : s ∈ l) (hp : p s = true) : ∃ i, firstIdx p l = some i := by
  induction hs with
  | head l => exact ⟨0, by simp [firstIdx, hp]⟩
  | tail b hmem ih =>
    rcases ih with ⟨i, hi⟩
    by_cases hb : p b = true
    · exact ⟨0, by simp [firstIdx, hb]⟩
    · exact ⟨i + 1, by simp [firstIdx, hb, hi]⟩

theorem firstIdx_spec {p : Socket → Bool} :
    ∀ {l : List Socket} {i : Nat}, firstIdx p l = some i →
      ∃ s, l[i]? = some s ∧ p s = true := by
  intro l
  induction l with
  | nil => intro i h; simp [firstIdx] at h
  | cons a l ih =>
    intro i h
    by_cases ha : p a = true
    · simp [firstIdx, ha] at h
      exact ⟨a, by simp [← h], ha⟩
    · simp [firstIdx, ha] at h
      rcases h with ⟨j, hj, rfl⟩
      rcases ih hj with ⟨s, hs, hps⟩
      exact ⟨s, by simpa using hs, hps⟩

theorem find?_append_of_none {α : Type} {p : α → Bool} {l1 l2 : List α}
    (h : ∀ x ∈ l1, p x = false) :
    List.find? p (l1 ++ l2) = List.find? p l2 := by
  induction l1 with
  | nil => rfl
  | cons a l ih =>
    have ha := h a (List.mem_cons_self a l)
    simp only [List.cons_append, List.find?, ha]
    exact ih (fun x hx => h x (List.mem_cons_of_mem a hx))

theorem contains_eq_false_of_all {l : List String} {nm : String}
    (h : ∀ x ∈ l, (x == nm) = false) : l.contains nm = false := by
  induction l with
  | nil => rfl
  | cons a l ih =>
    simp only [List.contains_cons, Bool.or_eq_false_iff]
    refine ⟨?_, ih (fun x hx => h x (List.mem_cons_of_mem a hx))⟩
    have ha := h a (List.mem_cons_self a l)
    rw [beq_eq_false_iff_ne] at ha ⊢
    exact fun e => ha e.symm

/-- If a group passes the `"Mask"` introspection check, the socket list its
instances expose contains a `"Mask"` output, and the builder's ordered
fallback therefore selects a socket named `"Mask"`. -/
theorem pick_of_hasMask {g : NodeGroup}
    (h : group_has_output_socket g "Mask" = true) :
    ∃ i s, pickGroupOutIdx (groupSockets "OUTPUT" g) = some i ∧
      (groupSockets "OUTPUT" g)[i]? = some s ∧ s.name = "Mask" := by
  unfold group_has_output_socket at h
  split at h
  · simp at h
  rename_i iface hif
  split at h
  · simp at h
  rename_i items hit
  rw [List.any_eq_true] at h
  rcases h with ⟨item, hmem, hitem⟩
  have hsock : (⟨"Mask", none⟩ : Socket) ∈ ifaceSockets "OUTPUT" items := by
    rcases item with ⟨n, io, t, dv, mn, mx⟩ | ⟨n, cs⟩
    · simp only [itemIsOutputNamed, Bool.and_eq_true, beq_iff_eq] at hitem
      rcases hitem with ⟨hio, hn⟩
      subst hio; subst hn
      unfold ifaceSockets
      rw [List.mem_filterMap]
      exact ⟨_, hmem, by simp⟩
    · simp [itemIsOutputNamed] at hitem
  have hgs : groupSockets "OUTPUT" g = ifaceSockets "OUTPUT" items := by
    simp [groupSockets, hif, hit]
  rw [← hgs] at hsock
  rcases @firstIdx_some_of_mem (fun s => s.name == "Mask") _ _ hsock (by decide)
    with ⟨i, hi⟩
  rcases firstIdx_spec hi with ⟨s, hget, hps⟩
  have hname : (s.name == "Mask") = true := hps
  refine ⟨i, s, ?_, hget, eq_of_beq hname⟩
  unfold pickGroupOutIdx
  rw [hi]

/-- `get_or_create_group` always hands back a compatible group. -/
theorem get_or_create_group_hasMask (d : BlendData) (nm : String) :
    group_has_output_socket (get_or_create_group d nm).2 "Mask" = true := by
  simp only [get_or_create_group]
  rcases h : nodeGroupsGet (backup_existing_group_if_incompatible d nm) nm with
    _ | ng
  · exact newMaskGroup_hasMask _ _
  · dsimp only
    by_cases hm : group_has_output_socket ng "Mask" = true
    · rw [if_pos hm]; simpa using hm
    · rw [if_neg hm]; exact newMaskGroup_hasMask _ _

theorem oldCandidate_shape (base : String) (i : Nat) :
    ∃ s, oldCandidate base i = base ++ s := by
  rcases i with _ | _ | i
  · exact ⟨"_" ++ toString 0, by simp [oldCandidate, String.append_assoc]⟩
  · exact ⟨"", by simp [oldCandidate]⟩
  · exact ⟨"_" ++ toString (i + 2), by simp [oldCandidate, String.append_assoc]⟩

theorem freeOldNameLoop_shape (d : BlendData) (base : String) :
    ∀ fuel idx, ∃ s, freeOldNameLoop d base idx fuel = base ++ s := by
  intro fuel
  induction fuel with
  | zero => intro idx; exact oldCandidate_shape base idx
  | succ f ih =>
    intro idx
    unfold freeOldNameLoop
    by_cases h : groupNameTaken d (oldCandidate base idx) = true
    · rw [if_pos h]; exact ih (idx + 1)
    · rw [if_neg h]; exact oldCandidate_shape base idx

/-- The backup name never collides with the original name (it is strictly
longer: `"<name>_OLD"` plus an optional numeric tail). -/
theorem freeOldName_ne (d : BlendData) (nm : String) : freeOldName d nm ≠ nm := by
  rcases freeOldNameLoop_shape d (nm ++ "_OLD") (d.node_groups.length + 1) 1
    with ⟨s, hs⟩
  unfold freeOldName
  rw [hs]
  intro he
  have hl := congrArg String.length he
  rw [String.length_append, String.length_append] at hl
  have h4 : ("_OLD" : String).length = 4 := by decide
  omega

/-- The `while` loop returns the first free candidate: if every candidate
strictly before `i` is taken and candidate `i` is free (and `i` is within
the loop's reach), the chosen name is candidate `i`. -/
theorem freeOldNameLoop_first_free (d : BlendData) (base : String) :
    ∀ fuel idx i, idx ≤ i → i ≤ idx + fuel →
      (∀ j, idx ≤ j → j < i → groupNameTaken d (oldCandidate base j) = true) →
      groupNameTaken d (oldCandidate base i) = false →
      freeOldNameLoop d base idx fuel = oldCandidate base i := by
  intro fuel
  induction fuel with
  | zero =>
    intro idx i h1 h2 _ _
    have : i = idx := by omega
    subst this
    rfl
  | succ f ih =>
    intro idx i h1 h2 htk hfr
    by_cases he : i = idx
    · subst he
      unfold freeOldNameLoop
      rw [if_neg (by simp [hfr])]
    · have ht : groupNameTaken d (oldCandidate base idx) = true :=
        htk idx le_rfl (by omega)
      unfold freeOldNameLoop
      rw [if_pos ht]
      exact ih (idx + 1) i (by omega) (by omega)
        (fun j hj1 hj2 => htk j (by omega) hj2) hfr

theorem renameFirst_append (l1 l2 : List NodeGroup) (g : NodeGroup)
    (old new : String)
    (h1 : ∀ x ∈ l1, (x.name == old) = false) (hg : (g.name == old) = true) :
    renameFirst (l1 ++ g :: l2) old new = l1 ++ { g with name := new } :: l2 := by
  induction l1 with
  | nil => simp [renameFirst, hg]
  | cons a l ih =>
    have ha := h1 a (List.mem_cons_self a l)
    simp only [List.cons_append, renameFirst, ha]
    simp only [Bool.false_eq_true, if_false, List.cons.injEq, true_and]
    exact ih (fun x hx => h1 x (List.mem_cons_of_mem a hx))

theorem find?_decomp {α : Type} {p : α → Bool} {l1 l2 : List α} {g : α}
    (h1 : ∀ x ∈ l1, p x = false) (hg : p g = true) :
    List.find? p (l1 ++ g :: l2) = some g := by
  rw [find?_append_of_none h1]
  simp [List.find?, hg]

/-- A compatible group of the requested name silences the backup helper. -/
theorem backup_noop_on_compatible (d : BlendData) (nm : String)
    (ng : NodeGroup) (hfind : nodeGroupsGet d nm = some ng)
    (hmask : group_has_output_socket ng "Mask" = true) :
    backup_existing_group_if_incompatible d nm = d := by
  unfold backup_existing_group_if_incompatible
  rw [hfind]
  dsimp only
  rw [if_pos hmask]

/-- An incompatible group of the requested name is renamed to the first free
backup name; nothing else changes. -/
theorem backup_renames (d : BlendData) (nm : String) (g0 : NodeGroup)
    (hfind : nodeGroupsGet d nm = some g0)
    (hmask : group_has_output_socket g0 "Mask" = false) :
    backup_existing_group_if_incompatible d nm =
      { d with node_groups :=
          renameFirst d.node_groups nm (freeOldName d nm) } := by
  unfold backup_existing_group_if_incompatible
  rw [hfind]
  dsimp only
  rw [if_neg (by simp [hmask])]

/-- The fast path of `get_or_create_group`: a compatible existing group is
returned as-is, with the document untouched. -/
theorem get_or_create_group_fast_path (d : BlendData) (nm : String)
    (ng : NodeGroup) (hfind : nodeGroupsGet d nm = some ng)
    (hmask : group_has_output_socket ng "Mask" = true) :
    get_or_create_group d nm = (d, ng) := by
  simp only [get_or_create_group, backup_noop_on_compatible d nm ng hfind hmask,
    hfind]
  rw [if_pos hmask]

/-- `freshDataName` keeps the requested name when it is free. -/
theorem freshDataName_of_free (taken : List String) (base : String)
    (h : taken.contains base = false) : freshDataName taken base = base := by
  unfold freshDataName freshNameLoop
  simp only [reduceIte, h, Bool.false_eq_true, if_false]

/-- The backup helper never touches materials or the identity counter. -/
theorem backup_preserves_rest (d : BlendData) (nm : String) :
    (backup_existing_group_if_incompatible d nm).materials = d.materials ∧
    (backup_existing_group_if_incompatible d nm).nextId = d.nextId := by
  unfold backup_existing_group_if_incompatible
  rcases h : nodeGroupsGet d nm with _ | g
  · exact ⟨rfl, rfl⟩
  · dsimp only
    by_cases hm : group_has_output_socket g "Mask" = true
    · rw [if_pos hm]
      exact ⟨rfl, rfl⟩
    · rw [if_neg hm]
      exact ⟨rfl, rfl⟩

/-- `get_or_create_group` never touches the materials collection. -/
theorem get_or_create_group_materials (d : BlendData) (nm : String) :
    (get_or_create_group d nm).1.materials = d.materials := by
  have hb := (backup_preserves_rest d nm).1
  simp only [get_or_create_group]
  rcases h : nodeGroupsGet (backup_existing_group_if_incompatible d nm) nm with
    _ | g
  · simp only [h]
    exact hb
  · simp only [h]
    by_cases hm : group_has_output_socket g "Mask" = true
    · rw [if_pos hm]
      exact hb
    · rw [if_neg hm]
      exact hb

/-- When no compatible group survives the backup step, `get_or_create_group`
takes the construction path. -/
theorem get_or_create_group_builds (d : BlendData) (nm : String)
    (h : buildsFresh d nm = true) :
    get_or_create_group d nm =
      mkNewGroup (backup_existing_group_if_incompatible d nm) nm := by
  rcases hf : nodeGroupsGet (backup_existing_group_if_incompatible d nm) nm with
    _ | g
  · simp only [get_or_create_group, hf]
  · unfold buildsFresh at h
    rw [hf] at h
    dsimp only at h
    have hm : ¬group_has_output_socket g "Mask" = true := by
      simp at h
      simp [h]
    simp only [get_or_create_group, hf]
    rw [if_neg hm]

/-! ### Claim theorems -/

/-- Claim C2: if a node group with the requested name exists and exposes an
output socket literally named `"Mask"`, `get_or_create_group` returns that
same object with the document unchanged, and a second call with the same
name yields the identical object again. -/
theorem get_or_create_group_idempotent_on_compatible
    (d : BlendData) (nm : String) (ng : NodeGroup)
    (hfind : nodeGroupsGet d nm = some ng)
    (hmask : group_has_output_socket ng "Mask" = true) :
    get_or_create_group d nm = (d, ng) ∧
    get_or_create_group (get_or_create_group d nm).1 nm = (d, ng) := by
  have h1 := get_or_create_group_fast_path d nm ng hfind hmask
  exact ⟨h1, by rw [h1]; exact h1⟩

/-- Witness for C2 at a concrete document holding one compatible group. -/
theorem get_or_create_group_idempotent_on_compatible_witness :
    get_or_create_group dCompat "G" = (dCompat, gCompat) ∧
    get_or_create_group (get_or_create_group dCompat "G").1 "G" =
      (dCompat, gCompat) :=
  get_or_create_group_idempotent_on_compatible dCompat "G" gCompat rfl
    (newMaskGroup_hasMask 0 "G")

/-- Claim C9: the introspection helper is a total function; a missing
`interface` or missing `items_tree` yields `false`, and it returns `true`
exactly when the preorder traversal of the interface items finds an
OUTPUT-direction item with the requested name. -/
theorem group_has_output_socket_characterization (ng : NodeGroup)
    (name : String) :
    group_has_output_socket ng name = true ↔
      ∃ iface items, ng.interface = some iface ∧
        iface.items_tree = some items ∧
        ∃ item ∈ walkItems items, itemIsOutputNamed name item = true := by
  constructor
  · intro h
    unfold group_has_output_socket at h
    split at h
    · simp at h
    rename_i iface hif
    split at h
    · simp at h
    rename_i items hit
    exact ⟨iface, items, hif, hit, List.any_eq_true.mp h⟩
  · rintro ⟨iface, items, hif, hit, item, hmem, hitem⟩
    unfold group_has_output_socket
    rw [hif]
    dsimp only
    rw [hit]
    dsimp only
    exact List.any_eq_true.mpr ⟨item, hmem, hitem⟩

/-- Claim C3: when a group of the requested name exists but lacks the
`"Mask"` output, the backup helper renames exactly that group — never
deleting it and never touching its content — to the first free name in the
sequence `"<name>_OLD"`, `"<name>_OLD_2"`, `"<name>_OLD_3"`, …  Here `i` is
the first free position of that sequence. -/
theorem backup_renames_incompatible_to_first_free_old
    (d : BlendData) (nm : String) (g0 : NodeGroup) (l1 l2 : List NodeGroup)
    (i : Nat)
    (hsplit : d.node_groups = l1 ++ g0 :: l2)
    (hl1 : ∀ x ∈ l1, (x.name == nm) = false)
    (hg0 : (g0.name == nm) = true)
    (hmask : group_has_output_socket g0 "Mask" = false)
    (hi1 : 1 ≤ i)
    (hfuel : i ≤ d.node_groups.length + 2)
    (htaken : ∀ j, 1 ≤ j → j < i →
      groupNameTaken d (oldCandidate (nm ++ "_OLD") j) = true)
    (hfree : groupNameTaken d (oldCandidate (nm ++ "_OLD") i) = false) :
    backup_existing_group_if_incompatible d nm =
      { d with node_groups :=
          l1 ++ { g0 with name := oldCandidate (nm ++ "_OLD") i } :: l2 } ∧
    oldCandidate (nm ++ "_OLD") 1 = nm ++ "_OLD" ∧
    (∀ j, 2 ≤ j →
      oldCandidate (nm ++ "_OLD") j = nm ++ "_OLD_" ++ toString j) := by
  have hfind : nodeGroupsGet d nm = some g0 := by
    unfold nodeGroupsGet
    rw [hsplit]
    exact find?_decomp hl1 hg0
  have hname : freeOldName d nm = oldCandidate (nm ++ "_OLD") i := by
    unfold freeOldName
    exact freeOldNameLoop_first_free d (nm ++ "_OLD")
      (d.node_groups.length + 1) 1 i hi1 (by omega)
      (fun j hj1 hj2 => htaken j hj1 hj2) hfree
  refine ⟨?_, rfl, ?_⟩
  · rw [backup_renames d nm g0 hfind hmask, hname, hsplit,
      renameFirst_append l1 l2 g0 nm _ hl1 hg0]
  · intro j hj
    rcases j with _ | _ | n
    · omega
    · omega
    · show (nm ++ "_OLD") ++ "_" ++ toString (n + 2) =
        (nm ++ "_OLD_") ++ toString (n + 2)
      have h1 : ("_OLD_" : String) = "_OLD" ++ "_" := by decide
      rw [h1]
      simp [String.append_assoc]

/-- Witness for C3: an incompatible group `"G"` with `"G_OLD"` free is
renamed to `"G_OLD"` (the backup-name sequence starts there). -/
theorem backup_renames_incompatible_witness :
    backup_existing_group_if_incompatible dIncompat "G" =
      { dIncompat with node_groups :=
          [{ gIncompat with name := oldCandidate ("G" ++ "_OLD") 1 }] } ∧
    oldCandidate ("G" ++ "_OLD") 1 = "G" ++ "_OLD" ∧
    (∀ j, 2 ≤ j →
      oldCandidate ("G" ++ "_OLD") j = "G" ++ "_OLD_" ++ toString j) :=
  backup_renames_incompatible_to_first_free_old dIncompat "G" gIncompat [] [] 1
    rfl (fun x hx => absurd hx (List.not_mem_nil x)) (by decide) rfl
    (by decide) (by decide)
    (fun j hj1 hj2 => absurd (Nat.lt_of_le_of_lt hj1 hj2) (Nat.lt_irrefl 1))
    (by decide)

/-- Claim C5: starting from a document with exactly one group of the
requested name, which lacks the `"Mask"` output, one builder call renames
that group (to a name different from the requested one), appends exactly one
new compatible group, and returns it; a second call on the resulting
document is a no-op returning the same new group. -/
theorem migration_is_one_shot (d : BlendData) (nm : String) (g0 : NodeGroup)
    (hfilter : d.node_groups.filter (fun g => g.name == nm) = [g0])
    (hmask : group_has_output_socket g0 "Mask" = false) :
    ∃ l1 l2 newNm,
      d.node_groups = l1 ++ g0 :: l2 ∧
      newNm ≠ nm ∧
      (get_or_create_group d nm).1.node_groups =
        l1 ++ { g0 with name := newNm } :: l2 ++ [(get_or_create_group d nm).2] ∧
      (get_or_create_group d nm).2 = newMaskGroup d.nextId nm ∧
      group_has_output_socket (get_or_create_group d nm).2 "Mask" = true ∧
      get_or_create_group (get_or_create_group d nm).1 nm =
        ((get_or_create_group d nm).1, (get_or_create_group d nm).2) := by
  rw [List.filter_eq_cons_iff] at hfilter
  rcases hfilter with ⟨l1, l2, hsplit, hl1, hg0, hl2f⟩
  have hl1' : ∀ x ∈ l1, (x.name == nm) = false := by
    intro x hx
    exact Bool.eq_false_iff.mpr (hl1 x hx)
  have hl2' : ∀ x ∈ l2, (x.name == nm) = false := by
    intro x hx
    rw [List.filter_eq_nil_iff] at hl2f
    exact Bool.eq_false_iff.mpr (hl2f x hx)
  have hfind : nodeGroupsGet d nm = some g0 := by
    unfold nodeGroupsGet
    rw [hsplit]
    exact find?_decomp hl1' hg0
  set newNm := freeOldName d nm with hnew
  have hne : newNm ≠ nm := freeOldName_ne d nm
  have hne' : (({ g0 with name := newNm } : NodeGroup).name == nm) = false :=
    beq_eq_false_iff_ne.mpr (by simpa using hne)
  have hback : backup_existing_group_if_incompatible d nm =
      { d with node_groups := l1 ++ { g0 with name := newNm } :: l2 } := by
    rw [backup_renames d nm g0 hfind hmask, hsplit,
      renameFirst_append l1 l2 g0 nm newNm hl1' hg0]
  -- after the backup no group is named `nm` any more
  have hnone : nodeGroupsGet (backup_existing_group_if_incompatible d nm) nm =
      none := by
    rw [hback]
    unfold nodeGroupsGet
    dsimp only
    rw [List.find?_eq_none]
    intro x hx
    rw [List.mem_append] at hx
    rcases hx with hx | hx
    · simp [hl1' x hx]
    · rw [List.mem_cons] at hx
      rcases hx with rfl | hx
      · simp [hne']
      · simp [hl2' x hx]
  -- the freshly created group really gets the requested name
  have hfree : ((backup_existing_group_if_incompatible d nm).node_groups.map
      (fun g => g.name)).contains nm = false := by
    apply contains_eq_false_of_all
    intro x hx
    rw [List.mem_map] at hx
    rcases hx with ⟨g, hg, rfl⟩
    rw [hback] at hg
    rw [List.mem_append] at hg
    rcases hg with hg | hg
    · exact hl1' g hg
    · rw [List.mem_cons] at hg
      rcases hg with rfl | hg
      · exact hne'
      · exact hl2' g hg
  have hmk : get_or_create_group d nm =
      mkNewGroup (backup_existing_group_if_incompatible d nm) nm := by
    simp only [get_or_create_group, hnone]
  have hsnd : (get_or_create_group d nm).2 = newMaskGroup d.nextId nm := by
    rw [hmk]
    unfold mkNewGroup
    dsimp only
    rw [freshDataName_of_free _ _ hfree]
    rw [hback]
  have hfst : (get_or_create_group d nm).1.node_groups =
      l1 ++ { g0 with name := newNm } :: l2 ++ [(get_or_create_group d nm).2] := by
    rw [hsnd, hmk]
    unfold mkNewGroup
    dsimp only
    rw [freshDataName_of_free _ _ hfree]
    rw [hback]
  refine ⟨l1, l2, newNm, hsplit, hne, hfst, hsnd, ?_, ?_⟩
  · rw [hsnd]
    exact newMaskGroup_hasMask _ _
  · -- second call: the new group is found first and is compatible
    have hmask2 : group_has_output_socket (get_or_create_group d nm).2 "Mask" =
        true := by
      rw [hsnd]
      exact newMaskGroup_hasMask _ _
    have hfind2 : nodeGroupsGet (get_or_create_group d nm).1 nm =
        some (get_or_create_group d nm).2 := by
      unfold nodeGroupsGet
      rw [hfst]
      have hshape : l1 ++ { g0 with name := newNm } :: l2 ++
          [(get_or_create_group d nm).2] =
          (l1 ++ { g0 with name := newNm } :: l2) ++
            (get_or_create_group d nm).2 :: [] := by
        simp [List.append_assoc]
      rw [hshape]
      apply find?_decomp
      · intro x hx
        rw [List.mem_append] at hx
        rcases hx with hx | hx
        · exact hl1' x hx
        · rw [List.mem_cons] at hx
          rcases hx with rfl | hx
          · exact hne'
          · exact hl2' x hx
      · rw [hsnd]
        simp [newMaskGroup]
    exact get_or_create_group_fast_path _ nm _ hfind2 hmask2

/-- Witness for C5 at the concrete one-incompatible-group document. -/
theorem migration_is_one_shot_witness :
    ∃ l1 l2 newNm,
      dIncompat.node_groups = l1 ++ gIncompat :: l2 ∧
      newNm ≠ "G" ∧
      (get_or_create_group dIncompat "G").1.node_groups =
        l1 ++ { gIncompat with name := newNm } :: l2 ++
          [(get_or_create_group dIncompat "G").2] ∧
      (get_or_create_group dIncompat "G").2 =
        newMaskGroup dIncompat.nextId "G" ∧
      group_has_output_socket (get_or_create_group dIncompat "G").2 "Mask" =
        true ∧
      get_or_create_group (get_or_create_group dIncompat "G").1 "G" =
        ((get_or_create_group dIncompat "G").1,
          (get_or_create_group dIncompat "G").2) :=
  migration_is_one_shot dIncompat "G" gIncompat rfl rfl

/-- Counterexample to C4 as stated: the single exposed input socket of a
freshly built mask subgraph is named `"Ramp Pos"`, not `"threshold"`, so no
input socket named `"threshold"` exists. -/
theorem new_subgraph_input_not_named_threshold :
    inputSocketNames (get_or_create_group dEmpty "CellLook_Shader_Group").2 =
      ["Ramp Pos"] ∧
    ("Ramp Pos" : String) ≠ "threshold" := by
  exact ⟨rfl, by decide⟩

/-- Claim C4 (amended: the exposed scalar input is literally named
`"Ramp Pos"`, not `"threshold"`): every newly constructed subgraph exposes
exactly one float input socket, named `"Ramp Pos"`, with default value 0.7
and range clamped to [0, 1], and exactly one color-typed output socket named
`"Mask"`. -/
theorem new_subgraph_interface (d : BlendData) (nm : String)
    (h : buildsFresh d nm = true) :
    (get_or_create_group d nm).2.interface =
      some ⟨some (.cons
        (.socket "Ramp Pos" "INPUT" "NodeSocketFloat"
          (some 0.7) (some 0) (some 1))
        (.cons (.socket "Mask" "OUTPUT" "NodeSocketColor" none none none)
          .nil))⟩ := by
  rw [get_or_create_group_builds d nm h]
  rfl

/-- Witness for C4's amended theorem on the empty document. -/
theorem new_subgraph_interface_witness :
    (get_or_create_group dEmpty "G").2.interface =
      some ⟨some (.cons
        (.socket "Ramp Pos" "INPUT" "NodeSocketFloat"
          (some 0.7) (some 0) (some 1))
        (.cons (.socket "Mask" "OUTPUT" "NodeSocketColor" none none none)
          .nil))⟩ :=
  new_subgraph_interface dEmpty "G" rfl

/-- Claim C6: the internal topology of every newly constructed mask subgraph
is exactly: diffuse shading (node 2) feeds shader-to-color (3), which feeds
luminance (4), which feeds input 0 of a GREATER_THAN comparison (5) whose
input 1 is the exposed `"Ramp Pos"` threshold (output 0 of group input
node 0); the comparison output feeds input 1 of a SUBTRACT node (6) with
input 0 fixed to 1 (computing `1 - x`); the inverted scalar feeds all three
channels Red/Green/Blue of a combine-color node (7), whose `"Color"` output
is wired to the group's `"Mask"` output (input 0 of group output node 1). -/
theorem new_subgraph_topology (d : BlendData) (nm : String)
    (h : buildsFresh d nm = true) :
    (get_or_create_group d nm).2.tree = newMaskGroupTree ∧
    newMaskGroupTree.nodes.map (fun n => (n.id, n.idname)) =
      [(0, "NodeGroupInput"), (1, "NodeGroupOutput"),
       (2, "ShaderNodeBsdfDiffuse"), (3, "ShaderNodeShaderToRGB"),
       (4, "ShaderNodeRGBToBW"), (5, "ShaderNodeMath"),
       (6, "ShaderNodeMath"), (7, "ShaderNodeCombineColor")] ∧
    (newMaskGroupTree.nodes[5]?).map (fun n => n.op) =
      some (some "GREATER_THAN") ∧
    (newMaskGroupTree.nodes[6]?).map (fun n => n.op) = some (some "SUBTRACT") ∧
    (newMaskGroupTree.nodes[6]?).map (fun n => n.inputs[0]?) =
      some (some ⟨"Value", some (.float 1)⟩) ∧
    (newMaskGroupTree.nodes[0]?).map (fun n => n.outputs[0]?) =
      some (some ⟨"Ramp Pos", none⟩) ∧
    (newMaskGroupTree.nodes[1]?).map (fun n => n.inputs[0]?) =
      some (some ⟨"Mask", none⟩) ∧
    (newMaskGroupTree.nodes[7]?).map (fun n => n.inputs.map Socket.name) =
      some ["Red", "Green", "Blue"] ∧
    (newMaskGroupTree.nodes[7]?).map (fun n => n.outputs.map Socket.name) =
      some ["Color"] ∧
    newMaskGroupTree.links =
      [⟨2, 0, 3, 0⟩,   -- diffuse BSDF        -> shader-to-color Shader
       ⟨3, 0, 4, 0⟩,   -- shader-to-color     -> luminance Color
       ⟨4, 0, 5, 0⟩,   -- luminance Val       -> greater-than input 0
       ⟨0, 0, 5, 1⟩,   -- Ramp Pos (exposed)  -> greater-than input 1
       ⟨5, 0, 6, 1⟩,   -- comparison result   -> invert input 1 (1 - x)
       ⟨6, 0, 7, 0⟩,   -- inverted scalar     -> combine Red
       ⟨6, 0, 7, 1⟩,   -- inverted scalar     -> combine Green
       ⟨6, 0, 7, 2⟩,   -- inverted scalar     -> combine Blue
       ⟨7, 0, 1, 0⟩]   -- combine Color       -> group output Mask
    := by
  refine ⟨?_, by decide, by decide, by decide, by decide, by decide, by decide,
    by decide, by decide, by decide⟩
  rw [get_or_create_group_builds d nm h]
  rfl

/-- Witness for C6 on the empty document. -/
theorem new_subgraph_topology_witness :
    (get_or_create_group dEmpty "G").2.tree = newMaskGroupTree :=
  (new_subgraph_topology dEmpty "G" rfl).1

/-- Counterexample to C1 as stated: building `"M"` over a document that
already has a material named `"M"` with unrelated nodes does not replace
that content.  The material stored under `"M"` afterwards is the untouched
prior one (still holding its unrelated node), and the newly built material
is stored under the host-disambiguated name `"M.001"`. -/
theorem material_name_not_replaced :
    materialsGet (create_celllook_material dPrior "M" "G").1 "M" =
      some mPrior ∧
    mPrior.node_tree.nodes.map (fun n => n.idname) = ["ShaderNodeValue"] ∧
    (create_celllook_material dPrior "M" "G").2.name = "M.001" := by
  exact ⟨rfl, rfl, rfl⟩

/-- Claim C1 (amended: the builder never reuses the existing material — it
allocates a brand-new one, disambiguating the name on collision): the
returned material's graph contains exactly the four expected stages (output,
emission, mask group instance, blend) and nothing else — in particular no
node that existed anywhere before the call — while every pre-existing
material is left untouched. -/
theorem material_graph_only_four_stages (d : BlendData) (mn gn : String) :
    (create_celllook_material d mn gn).2.node_tree.nodes.map
        (fun n => n.idname) =
      ["ShaderNodeOutputMaterial", "ShaderNodeEmission", "ShaderNodeGroup",
       "ShaderNodeMix"] ∧
    (create_celllook_material d mn gn).1.materials =
      d.materials ++ [(create_celllook_material d mn gn).2] := by
  constructor
  · rfl
  · show (get_or_create_group { d with nextId := d.nextId + 1 } gn).1.materials
        ++ [(create_celllook_material d mn gn).2] =
      d.materials ++ [(create_celllook_material d mn gn).2]
    rw [get_or_create_group_materials]

/-- The links of every built material: the ordered-fallback group output
into the mix factor, the mix result into the emission color, and the
emission into the surface output. -/
theorem material_links_shape (d : BlendData) (mn gn : String) :
    ∃ i s,
      pickGroupOutIdx (groupSockets "OUTPUT"
        (get_or_create_group { d with nextId := d.nextId + 1 } gn).2) =
          some i ∧
      (groupSockets "OUTPUT"
        (get_or_create_group { d with nextId := d.nextId + 1 } gn).2)[i]? =
          some s ∧
      s.name = "Mask" ∧
      (create_celllook_material d mn gn).2.node_tree.links =
        [⟨4, i, 5, 0⟩, ⟨5, 0, 3, 0⟩, ⟨3, 0, 2, 0⟩] := by
  rcases pick_of_hasMask
      (get_or_create_group_hasMask { d with nextId := d.nextId + 1 } gn) with
    ⟨i, s, hpick, hget, hname⟩
  refine ⟨i, s, hpick, hget, hname, ?_⟩
  show ((match pickGroupOutIdx (groupSockets "OUTPUT"
        (get_or_create_group { d with nextId := d.nextId + 1 } gn).2) with
      | none => ([] : List Link)
      | some j => [⟨4, j, 5, 0⟩]) ++ [⟨5, 0, 3, 0⟩]) ++ [⟨3, 0, 2, 0⟩] =
    [⟨4, i, 5, 0⟩, ⟨5, 0, 3, 0⟩, ⟨3, 0, 2, 0⟩]
  rw [hpick]
  rfl

/-- Claim C7: in every built material the blend stage's factor is driven by
the mask group instance's output chosen by the ordered fallback
(`"Mask"`, then `"Color"`, then the first output) — which is always an
output named `"Mask"` — and the blend endpoints default to white (A) and
black (B). -/
theorem blend_factor_ordered_fallback (d : BlendData) (mn gn : String) :
    ∃ gNode mixNode i s,
      (create_celllook_material d mn gn).2.node_tree.nodes[2]? = some gNode ∧
      gNode.idname = "ShaderNodeGroup" ∧
      gNode.id = 4 ∧
      (create_celllook_material d mn gn).2.node_tree.nodes[3]? =
        some mixNode ∧
      mixNode.idname = "ShaderNodeMix" ∧
      mixNode.id = 5 ∧
      mixNode.inputs = [⟨"Factor", none⟩, ⟨"A", some (.color 1 1 1 1)⟩,
        ⟨"B", some (.color 0 0 0 1)⟩] ∧
      inIdx mixNode "Factor" = some 0 ∧
      pickGroupOutIdx gNode.outputs = some i ∧
      gNode.outputs[i]? = some s ∧
      s.name = "Mask" ∧
      (⟨gNode.id, i, mixNode.id, 0⟩ : Link) ∈
        (create_celllook_material d mn gn).2.node_tree.links := by
  rcases material_links_shape d mn gn with ⟨i, s, hpick, hget, hname, hlinks⟩
  refine ⟨_, _, i, s, rfl, rfl, rfl, rfl, rfl, rfl, rfl, rfl, hpick, hget,
    hname, ?_⟩
  rw [hlinks]
  exact List.mem_cons_self _ _

/-- Claim C8: the material builder is total — it always hands back a
material appended to the document — and the returned graph carries the fully
connected path mask output → blend factor, blend result → emission color,
emission → surface output; when the factor socket or every group output is
absent, the factor link is skipped (no failure), leaving the rest in place. -/
theorem builder_total_and_path_connected (d : BlendData) (mn gn : String) :
    (create_celllook_material d mn gn).1.materials =
      d.materials ++ [(create_celllook_material d mn gn).2] ∧
    (∃ i, (create_celllook_material d mn gn).2.node_tree.links =
      [⟨4, i, 5, 0⟩, ⟨5, 0, 3, 0⟩, ⟨3, 0, 2, 0⟩]) ∧
    (∀ g m : Node, inIdx m "Factor" = none → inIdx m "Fac" = none →
      linkMaskToFactor g m = []) ∧
    (∀ g m : Node, pickGroupOutIdx g.outputs = none →
      linkMaskToFactor g m = []) := by
  refine ⟨?_, ?_, ?_, ?_⟩
  · show (get_or_create_group { d with nextId := d.nextId + 1 } gn).1.materials
        ++ [(create_celllook_material d mn gn).2] =
      d.materials ++ [(create_celllook_material d mn gn).2]
    rw [get_or_create_group_materials]
  · rcases material_links_shape d mn gn with ⟨i, _, _, _, _, hlinks⟩
    exact ⟨i, hlinks⟩
  · intro g m h1 h2
    unfold linkMaskToFactor
    rw [h1, h2]
    rfl
  · intro g m hp
    unfold linkMaskToFactor
    rcases h : (inIdx m "Factor").or (inIdx m "Fac") with _ | j
    · rfl
    · dsimp only
      rw [hp]

/-- Witness for C8: the path on a concrete build, and the skipped factor
link on a node with no `"Factor"`/`"Fac"` input. -/
theorem builder_total_and_path_connected_witness :
    (∃ i, (create_celllook_material dEmpty "M" "G").2.node_tree.links =
      [⟨4, i, 5, 0⟩, ⟨5, 0, 3, 0⟩, ⟨3, 0, 2, 0⟩]) ∧
    linkMaskToFactor nNoFactor nNoFactor = [] :=
  ⟨(builder_total_and_path_connected dEmpty "M" "G").2.1,
   (builder_total_and_path_connected dEmpty "M" "G").2.2.1 nNoFactor nNoFactor
     rfl rfl⟩

/-- Claim C10: every call allocates a brand-new material with a fresh
identity; the prior materials are carried over untouched (so none is read,
modified or removed) and the returned handle is never a pre-existing
material.  The hypothesis states the document invariant that existing
identities are below the allocation counter. -/
theorem material_allocation_is_fresh (d : BlendData) (mn gn : String)
    (hbound : ∀ m' ∈ d.materials, m'.id < d.nextId) :
    (create_celllook_material d mn gn).1.materials =
      d.materials ++ [(create_celllook_material d mn gn).2] ∧
    (create_celllook_material d mn gn).2.id = d.nextId ∧
    ∀ m' ∈ d.materials, m'.id ≠ (create_celllook_material d mn gn).2.id := by
  refine ⟨?_, rfl, ?_⟩
  · show (get_or_create_group { d with nextId := d.nextId + 1 } gn).1.materials
        ++ [(create_celllook_material d mn gn).2] =
      d.materials ++ [(create_celllook_material d mn gn).2]
    rw [get_or_create_group_materials]
  · intro m' hm'
    exact Nat.ne_of_lt (hbound m' hm')

/-- Witness for C10 on the document that already holds a material. -/
theorem material_allocation_is_fresh_witness :
    (create_celllook_material dPrior "M" "G").1.materials =
      dPrior.materials ++ [(create_celllook_material dPrior "M" "G").2] ∧
    (create_celllook_material dPrior "M" "G").2.id = dPrior.nextId ∧
    ∀ m' ∈ dPrior.materials,
      m'.id ≠ (create_celllook_material dPrior "M" "G").2.id :=
  material_allocation_is_fresh dPrior "M" "G" (by decide)

end CellLook
